import Mathlib

/-!
Verification of the command-line device-configuration grammar and the
context-binding protocol of krunkit (`src/cmdline.rs`).

The Rust code is shallowly embedded: `PathBuf` values are modelled as
`String` (its `FromStr` is infallible), `anyhow` error values are modelled
by the inductive `KrunError` with one constructor per error site, Rust's
`str::split` is modelled by `splitOnChar`/`strSplit`, and the foreign
hypervisor boundary calls are modelled by an oracle `B : BoundaryCall → Int`
giving the status each call would return, while each `krun_ctx_set`
returns the ordered trace of boundary calls it performed together with its
outcome.
-/

/-- Errors produced by the command-line layer, one constructor per
error site of `cmdline.rs` (the code uses `anyhow` message strings;
each constructor carries the values interpolated into that message). -/
inductive KrunError where
  /-- The error "expected --{label} argument to have {size} comma-separated
  sub-arguments, found {len}" -/
  | fieldCountMismatch (label : String) (expected found : Nat)
  /-- The error "expected label {label}, found {label_found}" -/
  | labelMismatch (expected found : String)
  /-- The error "invalid argument format: {s}" -/
  | malformedField (raw : String)
  /-- The error "no virtio device config found" -/
  | noDeviceConfigFound
  /-- The error "invalid virtio device label specified: {args[0]}" -/
  | unknownDeviceType (tag : String)
  /-- a `.context(...)` wrapping of a failed field conversion, carrying
  the field name (e.g. "port argument invalid") -/
  | fieldConversionError (field : String)
  /-- The error "invalid vsock action" -/
  | invalidVsockAction
  /-- The error "expected at least 2 arguments, found {len}" -/
  | insufficientArguments (found : Nat)
  /-- The error "unable to convert path {path} into NULL-terminated C string" -/
  | pathEncodingError (path : String)
  /-- The error "unable to set virtio-blk root disk" -/
  | setRootDiskFailed
  /-- The error "unable to add vsock port {port} for path {path}" -/
  | addVsockPortFailed (port : Nat) (path : String)
  /-- The error "unable to add virtiofs shared directory {dir} with mount tag {tag}" -/
  | addVirtiofsFailed (sharedDir mountTag : String)
  deriving DecidableEq, Repr

deriving instance DecidableEq for Except

/-- Rust's `str::split(c)` on a character list: always returns a
non-empty list of (possibly empty) chunks; splitting the empty string
yields `[[]]`, matching `"".split(c)` yielding one empty chunk. -/
def splitOnChar (c : Char) : List Char → List (List Char)
  | [] => [[]]
  | x :: xs =>
    let r := splitOnChar c xs
    if x = c then [] :: r
    else (x :: r.headD []) :: r.tail

/-- Rust's `str::split(c).map(str::to_string).collect::<Vec<String>>()`. -/
def strSplit (c : Char) (s : String) : List String :=
  (splitOnChar c s.data).map String.mk

/-- Rust's `[String]::join(",")`. -/
def joinComma : List String → String
  | [] => ""
  | [x] => x
  | x :: xs => x ++ "," ++ joinComma xs

/-- The `args_parse` from `cmdline.rs`: split `s` on `','`; when an expected
size is supplied, fail unless the number of fields matches it exactly. -/
def args_parse (s label : String) (sz : Option Nat) :
    Except KrunError (List String) :=
  let list := strSplit ',' s
  match sz with
  | some size =>
      if list.length ≠ size then
        .error (.fieldCountMismatch label size list.length)
      else
        .ok list
  | none => .ok list

/-- The `val_parse` from `cmdline.rs`: split a token on `'='`; one chunk
returns the token itself, two chunks validate the label and return the
value, anything else is malformed. -/
def val_parse (s label : String) : Except KrunError String :=
  let vals := strSplit '=' s
  match vals with
  | [v] => .ok v
  | [l, r] =>
      if l ≠ label then .error (.labelMismatch label l)
      else .ok r
  | _ => .error (.malformedField s)

/-- Rust's `u32::from_str`: an optional leading `'+'`, then one or more
decimal digits, and the value must fit in 32 bits. -/
def parse_u32 (s : String) : Option Nat :=
  let cs := s.data
  let digits := if cs.headD ' ' = '+' then cs.tail else cs
  if digits.isEmpty then none
  else if digits.all Char.isDigit then
    let n := digits.foldl (fun acc c => acc * 10 + (c.toNat - 48)) 0
    if n < 2 ^ 32 then some n else none
  else none

/-- Rust's `str::to_lowercase` restricted to its effect on ASCII input. -/
def asciiLower (s : String) : String := String.mk (s.data.map Char.toLower)

/-- The `BlkConfig`: payload of a `virtio-blk` device (`PathBuf` as `String`). -/
structure BlkConfig where
  path : String
  deriving DecidableEq, Repr

/-- The `SerialConfig`: payload of a `virtio-serial` device. -/
structure SerialConfig where
  log_file_path : String
  deriving DecidableEq, Repr

/-- The `VsockAction`: the single accepted vsock action. -/
inductive VsockAction where
  | Listen
  deriving DecidableEq, Repr

/-- The `VsockConfig`: payload of a `virtio-vsock` device. -/
structure VsockConfig where
  port : Nat
  socket_url : String
  action : VsockAction
  deriving DecidableEq, Repr

/-- The `NetConfig`: payload of a `virtio-net` device. -/
structure NetConfig where
  unix_socket_path : String
  mac_address : String
  deriving DecidableEq, Repr

/-- The `FsConfig`: payload of a `virtio-fs` device. -/
structure FsConfig where
  shared_dir : String
  mount_tag : String
  deriving DecidableEq, Repr

/-- The `VirtioDeviceConfig`: the closed union of the six device variants. -/
inductive VirtioDeviceConfig where
  | Blk (c : BlkConfig)
  | Rng
  | Serial (c : SerialConfig)
  | Vsock (c : VsockConfig)
  | Net (c : NetConfig)
  | Fs (c : FsConfig)
  deriving DecidableEq, Repr

/-- The `BlkConfig::from_str`: exactly one field, labeled `path`
(`PathBuf::from_str` itself is infallible, so its `.context` never fires). -/
def BlkConfig.from_str (s : String) : Except KrunError BlkConfig :=
  match args_parse s "virtio-blk" (some 1) with
  | .error e => .error e
  | .ok args =>
    match val_parse (args.getD 0 "") "path" with
    | .error e => .error e
    | .ok path => .ok ⟨path⟩

/-- The `SerialConfig::from_str`: exactly one field, labeled `logFilePath`. -/
def SerialConfig.from_str (s : String) : Except KrunError SerialConfig :=
  match args_parse s "virtio-serial" (some 1) with
  | .error e => .error e
  | .ok args =>
    match val_parse (args.getD 0 "") "logFilePath" with
    | .error e => .error e
    | .ok p => .ok ⟨p⟩

/-- The `VsockAction::from_str`: lowercases and accepts only `listen`. -/
def VsockAction.from_str (s : String) : Except KrunError VsockAction :=
  if asciiLower s = "listen" then .ok .Listen
  else .error .invalidVsockAction

/-- The `VsockConfig::from_str`: exactly three fields: `port=<u32>`,
`socketURL=<path>`, and an unlabeled action token. -/
def VsockConfig.from_str (s : String) : Except KrunError VsockConfig :=
  match args_parse s "virtio-vsock" (some 3) with
  | .error e => .error e
  | .ok args =>
    match val_parse (args.getD 0 "") "port" with
    | .error e => .error e
    | .ok pv =>
      match parse_u32 pv with
      | none => .error (.fieldConversionError "port")
      | some port =>
        match val_parse (args.getD 1 "") "socketURL" with
        | .error e => .error e
        | .ok socket_url =>
          match VsockAction.from_str (args.getD 2 "") with
          | .error e => .error e
          | .ok action => .ok ⟨port, socket_url, action⟩

/-- The `NetConfig::from_str`: exactly two fields, `unixSocketPath=<path>` and
`mac=<string>` (the MAC is kept as an opaque string). -/
def NetConfig.from_str (s : String) : Except KrunError NetConfig :=
  match args_parse s "virtio-net" (some 2) with
  | .error e => .error e
  | .ok args =>
    match val_parse (args.getD 0 "") "unixSocketPath" with
    | .error e => .error e
    | .ok p =>
      match val_parse (args.getD 1 "") "mac" with
      | .error e => .error e
      | .ok mac => .ok ⟨p, mac⟩

/-- The `FsConfig::from_str`: at least two fields, `sharedDir=<path>` then
`mountTag=<path>`; fields beyond the second are never inspected. -/
def FsConfig.from_str (s : String) : Except KrunError FsConfig :=
  match args_parse s "virtio-fs" none with
  | .error e => .error e
  | .ok args =>
    if args.length < 2 then
      .error (.insufficientArguments args.length)
    else
      match val_parse (args.getD 0 "") "sharedDir" with
      | .error e => .error e
      | .ok d =>
        match val_parse (args.getD 1 "") "mountTag" with
        | .error e => .error e
        | .ok t => .ok ⟨d, t⟩

/-- The `VirtioDeviceConfig::from_str`: split with no expected count, reject an
empty field list, rejoin everything after the first field with `','`, and
dispatch on the first field's exact value. -/
def VirtioDeviceConfig.from_str (s : String) :
    Except KrunError VirtioDeviceConfig :=
  match args_parse s "virtio" none with
  | .error e => .error e
  | .ok args =>
    if args.isEmpty then .error .noDeviceConfigFound
    else
      let rest := joinComma (args.drop 1)
      let a0 := args.getD 0 ""
      if a0 = "virtio-blk" then
        match BlkConfig.from_str rest with
        | .error e => .error e
        | .ok c => .ok (.Blk c)
      else if a0 = "virtio-rng" then .ok .Rng
      else if a0 = "virtio-serial" then
        match SerialConfig.from_str rest with
        | .error e => .error e
        | .ok c => .ok (.Serial c)
      else if a0 = "virtio-vsock" then
        match VsockConfig.from_str rest with
        | .error e => .error e
        | .ok c => .ok (.Vsock c)
      else if a0 = "virtio-net" then
        match NetConfig.from_str rest with
        | .error e => .error e
        | .ok c => .ok (.Net c)
      else if a0 = "virtio-fs" then
        match FsConfig.from_str rest with
        | .error e => .error e
        | .ok c => .ok (.Fs c)
      else .error (.unknownDeviceType a0)

/-- The type tag of each device variant, as written on the command line. -/
def VirtioDeviceConfig.tagOf : VirtioDeviceConfig → String
  | .Blk _ => "virtio-blk"
  | .Rng => "virtio-rng"
  | .Serial _ => "virtio-serial"
  | .Vsock _ => "virtio-vsock"
  | .Net _ => "virtio-net"
  | .Fs _ => "virtio-fs"

/-- The six recognized type tags. -/
def deviceTags : List String :=
  ["virtio-blk", "virtio-rng", "virtio-serial", "virtio-vsock",
   "virtio-net", "virtio-fs"]

/-- Whether the UTF-8 byte representation of `s` contains a NUL byte
(equivalently, whether `s` contains the character `U+0000`); this is the
failure condition of `CString::new`. -/
def hasNulByte (s : String) : Bool := s.data.contains (Char.ofNat 0)

/-- The `path_to_cstring` from `cmdline.rs`: `CString::new` on the path's
bytes, failing when the path contains an embedded NUL byte. -/
def path_to_cstring (path : String) : Except KrunError String :=
  if hasNulByte path then .error (.pathEncodingError path)
  else .ok path

/-- One invocation of a hypervisor boundary function, with the argument
values passed to it (string arguments stand for the NUL-terminated
C strings handed across the boundary). -/
inductive BoundaryCall where
  /-- The `krun_set_root_disk(ctx_id, c_disk_path)` -/
  | setRootDisk (ctx : Nat) (path : String)
  /-- The `krun_add_vsock_port(ctx_id, port, c_filepath)` -/
  | addVsockPort (ctx : Nat) (port : Nat) (path : String)
  /-- The `krun_add_virtiofs(ctx_id, c_tag, c_path)` -/
  | addVirtiofs (ctx : Nat) (tag : String) (path : String)
  deriving DecidableEq, Repr

/-- The outcome of a `krun_ctx_set` invocation: success, a structured
error, or the process abort caused by `unimplemented!()`. -/
inductive BindOutcome where
  | success
  | failure (e : KrunError)
  | notImplemented
  deriving DecidableEq, Repr

/-- The `KrunContextSet for BlkConfig`: encode the path, invoke
`krun_set_root_disk` once, and map a negative status to a failure.
`B` is the boundary oracle; the first component is the ordered trace of
boundary calls performed. -/
def BlkConfig.krun_ctx_set (blk : BlkConfig) (B : BoundaryCall → Int)
    (id : Nat) : List BoundaryCall × BindOutcome :=
  match path_to_cstring blk.path with
  | .error e => ([], .failure e)
  | .ok p =>
    if B (.setRootDisk id p) < 0 then
      ([.setRootDisk id p], .failure .setRootDiskFailed)
    else
      ([.setRootDisk id p], .success)

/-- The `KrunContextSet for VsockConfig`: encode the socket path, invoke
`krun_add_vsock_port` once, and map a negative status to a failure. -/
def VsockConfig.krun_ctx_set (v : VsockConfig) (B : BoundaryCall → Int)
    (id : Nat) : List BoundaryCall × BindOutcome :=
  match path_to_cstring v.socket_url with
  | .error e => ([], .failure e)
  | .ok p =>
    if B (.addVsockPort id v.port p) < 0 then
      ([.addVsockPort id v.port p], .failure (.addVsockPortFailed v.port v.socket_url))
    else
      ([.addVsockPort id v.port p], .success)

/-- The `KrunContextSet for FsConfig`: encode the shared directory and the
mount tag, invoke `krun_add_virtiofs` once with the tag as the second
argument and the directory as the third, and map a negative status to a
failure carrying both values. -/
def FsConfig.krun_ctx_set (fs : FsConfig) (B : BoundaryCall → Int)
    (id : Nat) : List BoundaryCall × BindOutcome :=
  match path_to_cstring fs.shared_dir with
  | .error e => ([], .failure e)
  | .ok d =>
    match path_to_cstring fs.mount_tag with
    | .error e => ([], .failure e)
    | .ok t =>
      if B (.addVirtiofs id t d) < 0 then
        ([.addVirtiofs id t d], .failure (.addVirtiofsFailed fs.shared_dir fs.mount_tag))
      else
        ([.addVirtiofs id t d], .success)

/-- The `KrunContextSet for VirtioDeviceConfig`: dispatch to the variant's
binding; `Rng`, `Serial` and `Net` hit `unimplemented!()`. -/
def VirtioDeviceConfig.krun_ctx_set (cfg : VirtioDeviceConfig)
    (B : BoundaryCall → Int) (id : Nat) : List BoundaryCall × BindOutcome :=
  match cfg with
  | .Blk blk => blk.krun_ctx_set B id
  | .Rng => ([], .notImplemented)
  | .Serial _ => ([], .notImplemented)
  | .Vsock v => v.krun_ctx_set B id
  | .Net _ => ([], .notImplemented)
  | .Fs fs => fs.krun_ctx_set B id

/-- Whether an error value is the "no virtio device config found" error
(the resolver's empty-sequence check). -/
def errIsNoDev : KrunError → Bool
  | .noDeviceConfigFound => true
  | _ => false

/-- Whether a parse result is the "no virtio device config found" error. -/
def resultIsNoDev {α : Type} : Except KrunError α → Bool
  | .error e => errIsNoDev e
  | .ok _ => false

/-- Splitting a character list always yields at least one chunk. -/
theorem splitOnChar_ne_nil (c : Char) (l : List Char) :
    splitOnChar c l ≠ [] := by
  cases l with
  | nil => simp [splitOnChar]
  | cons x xs =>
    unfold splitOnChar
    dsimp only
    split <;> simp

/-- A one-chunk split means the separator never occurred, so the single
chunk is the whole input. -/
theorem splitOnChar_singleton (c : Char) :
    ∀ l m : List Char, splitOnChar c l = [m] → m = l := by
  intro l
  induction l with
  | nil =>
    intro m h
    simp only [splitOnChar, List.cons.injEq] at h
    exact h.1.symm
  | cons x xs ih =>
    intro m h
    simp only [splitOnChar] at h
    split at h
    · obtain ⟨hm, hr⟩ := List.cons.inj h
      exact absurd hr (splitOnChar_ne_nil c xs)
    · obtain ⟨hm, hr⟩ := List.cons.inj h
      cases hs : splitOnChar c xs with
      | nil => exact absurd hs (splitOnChar_ne_nil c xs)
      | cons y ys =>
        rw [hs] at hm hr
        simp only [List.headD_cons, List.tail_cons] at hm hr
        subst hr
        have hy : y = xs := ih y hs
        rw [← hm, hy]

/-- The `strSplit` always yields at least one field. -/
theorem strSplit_cons (c : Char) (s : String) :
    ∃ a rest, strSplit c s = a :: rest := by
  unfold strSplit
  cases h : splitOnChar c s.data with
  | nil => exact absurd h (splitOnChar_ne_nil c s.data)
  | cons m t => exact ⟨String.mk m, t.map String.mk, by simp⟩

/-- A one-field split returns the whole string as the single field. -/
theorem strSplit_singleton {c : Char} {s v : String}
    (h : strSplit c s = [v]) : v = s := by
  unfold strSplit at h
  cases hm : splitOnChar c s.data with
  | nil => exact absurd hm (splitOnChar_ne_nil c s.data)
  | cons m t =>
    rw [hm] at h
    simp only [List.map_cons, List.cons.injEq, List.map_eq_nil_iff] at h
    obtain ⟨hv, ht⟩ := h
    subst ht
    have hms : m = s.data := splitOnChar_singleton c s.data m hm
    cases s with
    | mk data => rw [← hv, hms]

/-- C2: `args_parse` returns the comma-split field sequence when no
expected count is declared or when the sequence has exactly the expected
length, and otherwise fails with a field-count-mismatch error naming the
expected count and the actual length; in particular
`args_parse "a,b,c" _ (some 3)` succeeds with `["a","b","c"]` and
`args_parse "a,b" _ (some 3)` fails naming 3 and 2. -/
theorem args_parse_spec (s label : String) (n : Nat) :
    args_parse s label none = .ok (strSplit ',' s) ∧
    ((strSplit ',' s).length = n →
      args_parse s label (some n) = .ok (strSplit ',' s)) ∧
    ((strSplit ',' s).length ≠ n →
      args_parse s label (some n) =
        .error (.fieldCountMismatch label n (strSplit ',' s).length)) := by
  refine ⟨rfl, fun h => ?_, fun h => ?_⟩ <;> simp [args_parse, h]

/-- Witness for C2 at concrete inputs. -/
theorem args_parse_spec_witness :
    args_parse "a,b,c" "device" (some 3) = .ok ["a", "b", "c"] ∧
    args_parse "a,b" "device" (some 3) =
      .error (.fieldCountMismatch "device" 3 2) := by
  constructor
  · exact ((args_parse_spec "a,b,c" "device" 3).2.1 (by decide)).trans (by decide)
  · exact ((args_parse_spec "a,b" "device" 3).2.2 (by decide)).trans (by decide)

/-- C3: `val_parse` dispatches on the number of `=` occurrences in the
token: none returns the whole token unchanged with no label check, exactly
one returns the right side when the left side equals the expected label
(case-sensitively) and fails with a label-mismatch error otherwise, and
two or more fail with a malformed-field error. -/
theorem val_parse_spec (s label : String) :
    ((strSplit '=' s).length = 1 → val_parse s label = .ok s) ∧
    (∀ l r, strSplit '=' s = [l, r] →
      (l = label → val_parse s label = .ok r) ∧
      (l ≠ label → val_parse s label = .error (.labelMismatch label l))) ∧
    (3 ≤ (strSplit '=' s).length →
      val_parse s label = .error (.malformedField s)) := by
  refine ⟨?_, ?_, ?_⟩
  · intro h
    cases hs : strSplit '=' s with
    | nil => rw [hs] at h; simp at h
    | cons a t =>
      cases t with
      | nil =>
        have := strSplit_singleton hs
        subst this
        simp [val_parse, hs]
      | cons b u => rw [hs] at h; simp at h
  · intro l r hs
    constructor <;> intro hl <;> simp [val_parse, hs, hl]
  · intro h
    cases hs : strSplit '=' s with
    | nil => rw [hs] at h; simp at h
    | cons a t =>
      cases t with
      | nil => rw [hs] at h; simp at h
      | cons b u =>
        cases u with
        | nil => rw [hs] at h; simp at h
        | cons d w => simp [val_parse, hs]

/-- Witness for C3 at concrete inputs. -/
theorem val_parse_spec_witness :
    val_parse "path=/x" "path" = .ok "/x" ∧
    val_parse "path=/x" "foo" = .error (.labelMismatch "foo" "path") ∧
    val_parse "/x" "path" = .ok "/x" ∧
    val_parse "a=b=c" "x" = .error (.malformedField "a=b=c") := by
  refine ⟨?_, ?_, ?_, ?_⟩
  · exact ((val_parse_spec "path=/x" "path").2.1 "path" "/x" (by decide)).1 rfl
  · exact ((val_parse_spec "path=/x" "foo").2.1 "path" "/x" (by decide)).2 (by decide)
  · exact (val_parse_spec "/x" "path").1 (by decide)
  · exact (val_parse_spec "a=b=c" "x").2.2 (by decide)

/-- C1: `VirtioDeviceConfig::from_str` dispatches on the exact string
value of the first comma-separated field: every successful resolve
projects back (via `tagOf`) to the spec's first field, and a first field
outside the six fixed tags fails with an unknown-device-type error naming
the offending tag. -/
theorem resolve_dispatch_spec (s : String) :
    (∀ v, VirtioDeviceConfig.from_str s = .ok v →
      v.tagOf = (strSplit ',' s).headD "") ∧
    ((strSplit ',' s).headD "" ∉ deviceTags →
      VirtioDeviceConfig.from_str s =
        .error (.unknownDeviceType ((strSplit ',' s).headD ""))) := by
  obtain ⟨a0, rest, hs⟩ := strSplit_cons ',' s
  rw [hs, List.headD_cons]
  constructor
  · intro v hv
    unfold VirtioDeviceConfig.from_str at hv
    simp only [args_parse, hs, List.isEmpty_cons, Bool.false_eq_true, if_false,
      List.getD_cons_zero, List.drop_succ_cons, List.drop_zero] at hv
    repeat' split at hv
    all_goals try (injection hv with hv; subst hv)
    all_goals simp_all [VirtioDeviceConfig.tagOf]
  · intro hmem
    simp only [deviceTags, List.mem_cons, List.not_mem_nil, or_false,
      not_or] at hmem
    obtain ⟨h1, h2, h3, h4, h5, h6⟩ := hmem
    unfold VirtioDeviceConfig.from_str
    simp only [args_parse, hs, List.isEmpty_cons, Bool.false_eq_true, if_false,
      List.getD_cons_zero, List.drop_succ_cons, List.drop_zero,
      if_neg h1, if_neg h2, if_neg h3, if_neg h4, if_neg h5, if_neg h6]

/-- Witness for C1 at concrete inputs: a successful resolve whose variant
projects back to its tag, and an unknown tag rejected by name. -/
theorem resolve_dispatch_spec_witness :
    VirtioDeviceConfig.tagOf (.Fs ⟨"/a", "/b"⟩) =
      (strSplit ',' "virtio-fs,sharedDir=/a,mountTag=/b").headD "" ∧
    VirtioDeviceConfig.from_str "virtio-xyz,foo" =
      .error (.unknownDeviceType
        ((strSplit ',' "virtio-xyz,foo").headD "")) := by
  constructor
  · exact (resolve_dispatch_spec "virtio-fs,sharedDir=/a,mountTag=/b").1
      (.Fs ⟨"/a", "/b"⟩) (by decide)
  · exact (resolve_dispatch_spec "virtio-xyz,foo").2 (by decide)

/-- C6 (amended): resolving any device spec whose first field is
`virtio-rng` succeeds with the payload-free `Rng` variant; no field-count
validation is applied to residual fields. -/
theorem rng_parse_spec (s : String)
    (h : (strSplit ',' s).headD "" = "virtio-rng") :
    VirtioDeviceConfig.from_str s = .ok .Rng := by
  obtain ⟨a0, rest, hs⟩ := strSplit_cons ',' s
  rw [hs, List.headD_cons] at h
  subst h
  unfold VirtioDeviceConfig.from_str
  simp only [args_parse, hs, List.isEmpty_cons, Bool.false_eq_true, if_false,
    List.getD_cons_zero, List.drop_succ_cons, List.drop_zero]
  simp

/-- Witness for C6 at a concrete input. -/
theorem rng_parse_spec_witness :
    VirtioDeviceConfig.from_str "virtio-rng" = .ok .Rng :=
  rng_parse_spec "virtio-rng" (by decide)

/-- Counterexample to C6 as stated: a `virtio-rng` spec with a residual
field does not fail any field-count validation — it resolves successfully. -/
theorem rng_field_count_cex :
    VirtioDeviceConfig.from_str "virtio-rng,foo" = .ok .Rng := by decide

/-- The `args_parse` never produces the no-device-config-found error. -/
theorem resultIsNoDev_args_parse (s label : String) (sz : Option Nat) :
    resultIsNoDev (args_parse s label sz) = false := by
  unfold args_parse
  cases sz with
  | none => rfl
  | some n =>
    dsimp only
    split <;> rfl

/-- The `val_parse` never produces the no-device-config-found error. -/
theorem resultIsNoDev_val_parse (s label : String) :
    resultIsNoDev (val_parse s label) = false := by
  unfold val_parse
  dsimp only
  split
  · rfl
  · split <;> rfl
  · rfl

/-- Transfers `resultIsNoDev` across an error equation. -/
theorem errIsNoDev_of_result {α : Type} {x : Except KrunError α}
    {e : KrunError} (hx : resultIsNoDev x = false) (h : x = .error e) :
    errIsNoDev e = false := by
  rw [h] at hx
  exact hx

/-- The `VsockAction::from_str` never produces the no-device-config-found
error. -/
theorem resultIsNoDev_vsock_action (s : String) :
    resultIsNoDev (VsockAction.from_str s) = false := by
  unfold VsockAction.from_str
  split <;> rfl

/-- The `BlkConfig::from_str` never produces the no-device-config-found
error. -/
theorem resultIsNoDev_blk (s : String) :
    resultIsNoDev (BlkConfig.from_str s) = false := by
  unfold BlkConfig.from_str
  split
  · rename_i e h
    exact errIsNoDev_of_result (resultIsNoDev_args_parse s "virtio-blk" (some 1)) h
  · split
    · rename_i e h
      exact errIsNoDev_of_result (resultIsNoDev_val_parse _ "path") h
    · rfl

/-- The `SerialConfig::from_str` never produces the no-device-config-found
error. -/
theorem resultIsNoDev_serial (s : String) :
    resultIsNoDev (SerialConfig.from_str s) = false := by
  unfold SerialConfig.from_str
  split
  · rename_i e h
    exact errIsNoDev_of_result (resultIsNoDev_args_parse s "virtio-serial" (some 1)) h
  · split
    · rename_i e h
      exact errIsNoDev_of_result (resultIsNoDev_val_parse _ "logFilePath") h
    · rfl

/-- The `VsockConfig::from_str` never produces the no-device-config-found
error. -/
theorem resultIsNoDev_vsock (s : String) :
    resultIsNoDev (VsockConfig.from_str s) = false := by
  unfold VsockConfig.from_str
  split
  · rename_i e h
    exact errIsNoDev_of_result (resultIsNoDev_args_parse s "virtio-vsock" (some 3)) h
  · split
    · rename_i e h
      exact errIsNoDev_of_result (resultIsNoDev_val_parse _ "port") h
    · split
      · rfl
      · split
        · rename_i e h
          exact errIsNoDev_of_result (resultIsNoDev_val_parse _ "socketURL") h
        · split
          · rename_i e h
            exact errIsNoDev_of_result (resultIsNoDev_vsock_action _) h
          · rfl

/-- The `NetConfig::from_str` never produces the no-device-config-found
error. -/
theorem resultIsNoDev_net (s : String) :
    resultIsNoDev (NetConfig.from_str s) = false := by
  unfold NetConfig.from_str
  split
  · rename_i e h
    exact errIsNoDev_of_result (resultIsNoDev_args_parse s "virtio-net" (some 2)) h
  · split
    · rename_i e h
      exact errIsNoDev_of_result (resultIsNoDev_val_parse _ "unixSocketPath") h
    · split
      · rename_i e h
        exact errIsNoDev_of_result (resultIsNoDev_val_parse _ "mac") h
      · rfl

/-- The `FsConfig::from_str` never produces the no-device-config-found
error. -/
theorem resultIsNoDev_fs (s : String) :
    resultIsNoDev (FsConfig.from_str s) = false := by
  unfold FsConfig.from_str
  split
  · rename_i e h
    exact errIsNoDev_of_result (resultIsNoDev_args_parse s "virtio-fs" none) h
  · split
    · rfl
    · split
      · rename_i e h
        exact errIsNoDev_of_result (resultIsNoDev_val_parse _ "sharedDir") h
      · split
        · rename_i e h
          exact errIsNoDev_of_result (resultIsNoDev_val_parse _ "mountTag") h
        · rfl

/-- C10: splitting on `','` always yields at least one field, so the
resolver's empty-sequence check is unreachable: `from_str` never returns
the no-device-config-found error, and resolving the empty string fails
with the unknown-device-type error naming the empty string. -/
theorem resolve_no_empty_spec (s : String) :
    1 ≤ (strSplit ',' s).length ∧
    resultIsNoDev (VirtioDeviceConfig.from_str s) = false ∧
    VirtioDeviceConfig.from_str "" = .error (.unknownDeviceType "") := by
  obtain ⟨a0, rest, hs⟩ := strSplit_cons ',' s
  refine ⟨by rw [hs]; simp, ?_, by decide⟩
  unfold VirtioDeviceConfig.from_str
  simp only [args_parse, hs, List.isEmpty_cons, Bool.false_eq_true, if_false,
    List.getD_cons_zero, List.drop_succ_cons, List.drop_zero]
  repeat' split
  all_goals try rfl
  all_goals rename_i e h
  all_goals first
    | exact errIsNoDev_of_result (resultIsNoDev_blk _) h
    | exact errIsNoDev_of_result (resultIsNoDev_serial _) h
    | exact errIsNoDev_of_result (resultIsNoDev_vsock _) h
    | exact errIsNoDev_of_result (resultIsNoDev_net _) h
    | exact errIsNoDev_of_result (resultIsNoDev_fs _) h

/-- C4: the vsock parser requires exactly 3 fields; given three fields it
fails with a conversion error naming field `port` when the first field's
value does not parse as an unsigned 32-bit integer, and otherwise takes
the second field's value as the socket path and succeeds constructing
`Vsock{port, socket_url, action := Listen}` exactly when the third
(unlabeled) field case-insensitively equals `listen`, failing with an
invalid-vsock-action error otherwise. -/
theorem vsock_parse_spec (s : String) :
    ((strSplit ',' s).length ≠ 3 →
      VsockConfig.from_str s =
        .error (.fieldCountMismatch "virtio-vsock" 3 (strSplit ',' s).length)) ∧
    (∀ a0 a1 a2, strSplit ',' s = [a0, a1, a2] →
      (∀ pv, val_parse a0 "port" = .ok pv → parse_u32 pv = none →
        VsockConfig.from_str s = .error (.fieldConversionError "port")) ∧
      (∀ pv n uv, val_parse a0 "port" = .ok pv → parse_u32 pv = some n →
        val_parse a1 "socketURL" = .ok uv →
        (asciiLower a2 = "listen" →
          VsockConfig.from_str s = .ok ⟨n, uv, .Listen⟩) ∧
        (asciiLower a2 ≠ "listen" →
          VsockConfig.from_str s = .error .invalidVsockAction))) := by
  constructor
  · intro h
    unfold VsockConfig.from_str
    simp [args_parse, h]
  · intro a0 a1 a2 hsp
    constructor
    · intro pv hpv hnone
      unfold VsockConfig.from_str
      simp [args_parse, hsp, hpv, hnone]
    · intro pv n uv hpv hn huv
      constructor <;> intro hact <;>
        unfold VsockConfig.from_str <;>
        simp [args_parse, hsp, hpv, hn, huv, VsockAction.from_str, hact]

/-- Witness for C4 at concrete inputs: the spec's success example and its
`port=abc` failure example. -/
theorem vsock_parse_spec_witness :
    VsockConfig.from_str "port=1024,socketURL=/tmp/v.sock,listen" =
      .ok ⟨1024, "/tmp/v.sock", .Listen⟩ ∧
    VsockConfig.from_str "port=abc,socketURL=/tmp/v.sock,listen" =
      .error (.fieldConversionError "port") := by
  constructor
  · exact (((vsock_parse_spec "port=1024,socketURL=/tmp/v.sock,listen").2
      "port=1024" "socketURL=/tmp/v.sock" "listen" (by decide)).2
      "1024" 1024 "/tmp/v.sock" (by decide) (by decide) (by decide)).1 (by decide)
  · exact ((vsock_parse_spec "port=abc,socketURL=/tmp/v.sock,listen").2
      "port=abc" "socketURL=/tmp/v.sock" "listen" (by decide)).1
      "abc" (by decide) (by decide)

/-- C5: the shared-filesystem parser fails with an insufficient-arguments
error whenever its residual string splits into fewer than 2 fields, and
for 2 or more fields with valid first two fields it succeeds constructing
`SharedFs` from the first (`sharedDir`) and second (`mountTag`) fields,
silently ignoring every field after the second. -/
theorem fs_parse_spec (s : String) :
    ((strSplit ',' s).length < 2 →
      FsConfig.from_str s =
        .error (.insufficientArguments (strSplit ',' s).length)) ∧
    (∀ a0 a1 rest d t, strSplit ',' s = a0 :: a1 :: rest →
      val_parse a0 "sharedDir" = .ok d →
      val_parse a1 "mountTag" = .ok t →
      FsConfig.from_str s = .ok ⟨d, t⟩) := by
  constructor
  · intro h
    unfold FsConfig.from_str
    simp [args_parse, h]
  · intro a0 a1 rest d t hsp hd ht
    unfold FsConfig.from_str
    simp [args_parse, hsp, hd, ht]

/-- Witness for C5 at concrete inputs: success with a silently ignored
third field, and a one-field failure. -/
theorem fs_parse_spec_witness :
    FsConfig.from_str "sharedDir=/a,mountTag=/b,extra" = .ok ⟨"/a", "/b"⟩ ∧
    FsConfig.from_str "sharedDir=/a" = .error (.insufficientArguments 1) := by
  constructor
  · exact (fs_parse_spec "sharedDir=/a,mountTag=/b,extra").2
      "sharedDir=/a" "mountTag=/b" ["extra"] "/a" "/b"
      (by decide) (by decide) (by decide)
  · exact ((fs_parse_spec "sharedDir=/a").1 (by decide)).trans (by decide)

/-- C7: for every boundary oracle and context identifier, binding an
`Entropy` (`Rng`), `Serial`, or `Network` (`Net`) variant performs no
boundary call and ends in the hard not-implemented abort — never success
and never a silent no-op. -/
theorem bind_not_implemented_spec (B : BoundaryCall → Int) (id : Nat)
    (sc : SerialConfig) (nc : NetConfig) :
    VirtioDeviceConfig.krun_ctx_set .Rng B id = ([], .notImplemented) ∧
    VirtioDeviceConfig.krun_ctx_set (.Serial sc) B id = ([], .notImplemented) ∧
    VirtioDeviceConfig.krun_ctx_set (.Net nc) B id = ([], .notImplemented) :=
  ⟨rfl, rfl, rfl⟩

/-- C8: binding a `Block` variant fails with a path-encoding error before
any boundary call when the stored path contains an embedded NUL byte;
otherwise it invokes the set-root-disk boundary call exactly once with the
context id and the encoded path, succeeding iff the boundary status is
non-negative and failing with `setRootDiskFailed` (and no further calls)
iff it is negative. -/
theorem blk_bind_spec (B : BoundaryCall → Int) (id : Nat) (blk : BlkConfig) :
    (hasNulByte blk.path = true →
      BlkConfig.krun_ctx_set blk B id =
        ([], .failure (.pathEncodingError blk.path))) ∧
    (hasNulByte blk.path = false →
      BlkConfig.krun_ctx_set blk B id =
        ([.setRootDisk id blk.path],
          if B (.setRootDisk id blk.path) < 0 then .failure .setRootDiskFailed
          else .success)) := by
  constructor <;> intro h
  · simp [BlkConfig.krun_ctx_set, path_to_cstring, h]
  · simp only [BlkConfig.krun_ctx_set, path_to_cstring, h, Bool.false_eq_true,
      if_false]
    split <;> rfl

/-- Witness for C8: a boundary returning a negative status surfaces
`setRootDiskFailed` after exactly one call. -/
theorem blk_bind_spec_witness :
    BlkConfig.krun_ctx_set ⟨"/disk"⟩ (fun _ => -1) 7 =
      ([.setRootDisk 7 "/disk"], .failure .setRootDiskFailed) := by
  have h := (blk_bind_spec (fun _ => -1) 7 ⟨"/disk"⟩).2 (by decide)
  exact h.trans (by decide)

/-- C9: binding a `SharedFs` variant passes the encoded mount tag as the
second boundary-call argument and the encoded shared directory as the
third (the swap relative to the struct's field order), and maps a negative
boundary status to `addVirtiofsFailed` carrying both the shared directory
and the mount tag. -/
theorem fs_bind_spec (B : BoundaryCall → Int) (id : Nat) (fs : FsConfig)
    (h1 : hasNulByte fs.shared_dir = false)
    (h2 : hasNulByte fs.mount_tag = false) :
    FsConfig.krun_ctx_set fs B id =
      ([.addVirtiofs id fs.mount_tag fs.shared_dir],
        if B (.addVirtiofs id fs.mount_tag fs.shared_dir) < 0 then
          .failure (.addVirtiofsFailed fs.shared_dir fs.mount_tag)
        else .success) := by
  simp only [FsConfig.krun_ctx_set, path_to_cstring, h1, h2,
    Bool.false_eq_true, if_false]
  split <;> rfl

/-- Witness for C9: the mount tag travels in argument position two and the
shared directory in position three, and a negative status yields the
structured failure carrying both. -/
theorem fs_bind_spec_witness :
    FsConfig.krun_ctx_set ⟨"/a", "/b"⟩ (fun _ => -1) 9 =
      ([.addVirtiofs 9 "/b" "/a"],
        .failure (.addVirtiofsFailed "/a" "/b")) := by
  have h := fs_bind_spec (fun _ => -1) 9 ⟨"/a", "/b"⟩ (by decide) (by decide)
  exact h.trans (by decide)
